import Mathlib

/-!
# Verification of the HBK documentation-extraction pipeline

Shallow embedding of `src/parsers/hbk_parser.py` (class `HBKParser`) from the
1c-syntax-helper-mcp repository, together with proofs checking the
natural-language specification's claims against it.

External effects (subprocess invocations, per-file extraction, HTML
conversion, byte decoding, the wall clock) are modelled as oracle functions
supplied to the embedded pipeline; the pipeline's own control flow, counters,
quota logic and listing-format parsing are translated statement by statement
from the Python source.

The repository's `src/models/doc_models.py`, `src/parsers/html_parser.py`,
`src/core/utils.py` and `src/core/constants.py` are not present in the
source tree; the data structures and the validation predicate they provide
are modelled from the spec (sections 3, 4.1, 4.5) and are marked as such in
their doc comments.
-/

namespace Help1C

/-! ## String utilities

Python string operations used by the parser, implemented over `List Char`
so that all concrete evaluations reduce in the kernel. -/

/-- `sub in hay`: Python's substring test `pat in s`. -/
def charsContains (pat : List Char) : List Char → Bool
  | [] => pat.isPrefixOf ([] : List Char)
  | c :: cs => pat.isPrefixOf (c :: cs) || charsContains pat cs

/-- Python `pat in s` (substring containment). -/
def strContains (s pat : String) : Bool :=
  charsContains pat.data s.data

/-- Python `s.endswith(pat)`. -/
def strEndsWith (s pat : String) : Bool :=
  pat.data.isSuffixOf s.data

/-- Python `s.startswith(pat)`. -/
def strStartsWith (s pat : String) : Bool :=
  pat.data.isPrefixOf s.data

/-- Python `s.replace('\\', '/')` — single-character replacement. -/
def normSlash (s : String) : String :=
  ⟨s.data.map (fun c => if c = '\\' then '/' else c)⟩

/-- Split a character list at every occurrence of the separator character
(Python `s.split('/')`: empty fields are kept). -/
def splitChar (sep : Char) : List Char → List (List Char)
  | [] => [[]]
  | c :: cs =>
    match splitChar sep cs with
    | [] => [[]]
    | g :: gs => if c = sep then [] :: g :: gs else (c :: g) :: gs

/-- Python `s.split('/')`. -/
def strSplitSlash (s : String) : List String :=
  (splitChar '/' s.data).map (fun l => ⟨l⟩)

/-- Split on runs of whitespace, dropping empty fields
(Python `s.split()` with no argument). -/
def pySplitWs (s : String) : List String :=
  ((splitChar ' ' s.data).map (fun l => ⟨l⟩)).filter (fun t => t ≠ "")

/-- Split on newlines (Python `s.split('\n')`). -/
def splitLines (s : String) : List String :=
  (splitChar '\n' s.data).map (fun l => ⟨l⟩)

/-- Python `s.strip()` (whitespace trimmed from both ends). -/
def pyStrip (s : String) : String :=
  ⟨((s.data.dropWhile Char.isWhitespace).reverse.dropWhile Char.isWhitespace).reverse⟩

/-- Python `' '.join(parts)`. -/
def joinSpace : List String → String
  | [] => ""
  | [x] => x
  | x :: y :: rest => x ++ " " ++ joinSpace (y :: rest)

/-- Python `s.rstrip('/')`. -/
def rstripSlash (s : String) : String :=
  ⟨(s.data.reverse.dropWhile (fun c => c = '/')).reverse⟩

/-- Python `int(s)` on a non-negative decimal literal, `none` when `s` is not
one (mirrors `parts[3].isdigit()` / the `ValueError` branch: both yield 0 at
the call sites). -/
def pyParseNat (s : String) : Option Nat :=
  if s.data ≠ [] ∧ s.data.all Char.isDigit then
    some (s.data.foldl (fun n c => n * 10 + (c.toNat - 48)) 0)
  else none

/-- Python `s.lower()`. -/
def strLower (s : String) : String :=
  ⟨s.data.map Char.toLower⟩

/-! ## Data model

Modelled from the spec: `src/models/doc_models.py` is not in the source
tree.  Structures follow spec §3 (ArchiveEntry, DocumentationRecord,
DocumentationKind, CategoryInfo, ParseResult/ArchiveFile) and the attribute
names the Python code uses (`path`, `size`, `is_dir`, `content`,
`documentation`, `categories`, `stats`, `errors`, `entries_count`). -/

/-- DocumentationKind — the closed set of documentation kinds (spec §3),
matching the keys of `target_types` in `_analyze_structure`. -/
inductive DocumentType where
  | GLOBAL_FUNCTION
  | GLOBAL_PROCEDURE
  | GLOBAL_EVENT
  | OBJECT_FUNCTION
  | OBJECT_PROCEDURE
  | OBJECT_PROPERTY
  | OBJECT_EVENT
  | OBJECT_CONSTRUCTOR
  | OBJECT
deriving DecidableEq, Repr

/-- The nine target kinds, in the order of the `target_types` dict. -/
def allKinds : List DocumentType :=
  [.GLOBAL_FUNCTION, .GLOBAL_PROCEDURE, .GLOBAL_EVENT,
   .OBJECT_FUNCTION, .OBJECT_PROCEDURE, .OBJECT_PROPERTY,
   .OBJECT_EVENT, .OBJECT_CONSTRUCTOR, .OBJECT]

/-- Modelled from the spec: one archive member (`HBKEntry` in
`doc_models`). Byte content is represented as `Option String`. -/
structure HBKEntry where
  path : String
  size : Nat
  is_dir : Bool
  content : Option String
deriving DecidableEq, Repr

/-- Modelled from the spec: a typed documentation record (`Documentation` in
`doc_models`); the parsed body is opaque to this pipeline, so only the
fields the pipeline reads (`name`, `type`) are carried. -/
structure Documentation where
  name : String
  type : DocumentType
deriving DecidableEq, Repr

/-- Modelled from the spec: per-section category metadata (`CategoryInfo`). -/
structure CategoryInfo where
  name : String
  section_name : String
  description : String
  version_from : Option String
deriving DecidableEq, Repr

/-- Modelled from the spec: identity of the source archive (`HBKFile`). -/
structure HBKFile where
  path : String
  size : Nat
  modified : Nat
  entries_count : Nat
deriving DecidableEq, Repr

/-- The `result.stats` dictionary built at the end of
`_analyze_structure` (keys as in the source, lines 335–349). -/
structure RunStats where
  html_files : Nat
  global_methods_files : Nat
  global_events_files : Nat
  global_context_files : Nat
  object_constructors_files : Nat
  object_events_files : Nat
  other_object_files : Nat
  processed_html : Nat
  cp_global_methods : Nat
  cp_global_events : Nat
  cp_global_context : Nat
  cp_object_constructors : Nat
  cp_object_events : Nat
  cp_other_objects : Nat
  found_types : DocumentType → Nat
  st_files : Nat
  category_files : Nat
  total_entries : Nat

/-- Modelled from the spec: the result aggregate (`ParsedHBK`).  `stats` is
`none` until `_analyze_structure` fills it. -/
structure ParsedHBK where
  file_info : HBKFile
  documentation : List Documentation
  categories : List (String × CategoryInfo)
  stats : Option RunStats
  errors : List String

/-- Result of one `safe_subprocess_run` call: return code and captured
output.  A raised `SafeSubprocessError` is modelled as `none` at the oracle
boundary. -/
structure SubprocResult where
  returncode : Int
  stdout : String
  stderr : String

/-- Oracles for every external effect of the parser: subprocess runs,
on-demand single-file extraction (`extract_file_content`, §4.4 contract),
HTML conversion (`HTMLParser.parse_html_content`, §4.5 contract), byte
decoding of category metadata (the `SUPPORTED_ENCODINGS` loop), the version
regex search of `_parse_categories_file`, and `time.time()` (reading `k` is
the value of the `k`-th call: call 0 is `start_time`, call `k ≥ 1` is the
`k`-th cadence check). -/
structure Oracles where
  subproc : List String → Option SubprocResult
  extractContent : String → Option String
  parseHtml : String → String → Option Documentation
  decodeBytes : String → Option String
  findVersion : String → Option String
  clock : Nat → Nat

/-- Parser configuration: the constructor arguments
(`max_files_per_type`, `max_total_files`) plus the maximum file size,
which the source takes from the absent `src/core/constants.py`
(`MAX_FILE_SIZE_MB`, spec §4.1 "maximum size ceiling") — modelled as a
parameter, in bytes. -/
structure HBKParser where
  max_files_per_type : Option Nat
  max_total_files : Option Nat
  maxFileSize : Nat

/-- Python truthiness of an `Optional[int]`: `None` and `0` are falsy. -/
def pyTruthy : Option Nat → Bool
  | none => false
  | some n => n ≠ 0

/-- `x or float('inf')`: a falsy quota becomes "no limit" (`none` = ∞). -/
def orInf (x : Option Nat) : Option Nat :=
  if pyTruthy x then x else none

/-- `n < m` where `m` may be ∞ (`none`). -/
def ltO (n : Nat) : Option Nat → Bool
  | none => true
  | some m => n < m

/-! ## Entry classification (`_analyze_structure`, lines 152–218)

The per-entry bucketing rules of the classification loop, extracted as pure
functions of the entry path exactly as written in the source (substring
tests against the raw path, with both separators spelled out). -/

/-- The six buckets the classification loop appends to. -/
inductive Bucket where
  | global_methods
  | global_events
  | global_context
  | object_constructors
  | object_events
  | other_objects
deriving DecidableEq, Repr

/-- The `elif` chain over an `.html` entry path (source lines 193–212).
`none` means the path matched no rule (the trailing `continue`). -/
def htmlBucket (path : String) : Option Bucket :=
  if strContains path "objects/Global context/methods" ||
     strContains path "objects\\Global context\\methods" then
    some .global_methods
  else if strContains path "objects/Global context/events" ||
          strContains path "objects\\Global context\\events" then
    some .global_events
  else if strContains path "objects/Global context" ||
          strContains path "objects\\Global context" then
    some .global_context
  else if strContains path "/ctors/" || strContains path "\\ctors\\" ||
          strContains path "/ctor/" || strContains path "\\ctor\\" then
    some .object_constructors
  else if (strContains path "/events/" || strContains path "\\events\\") &&
          !strContains path "Global context" then
    some .object_events
  else if strContains path "objects/" || strContains path "objects\\" then
    some .other_objects
  else
    none

/-- `entry.path.replace('\\', '/').split('/')` (source line 177). -/
def pathParts (path : String) : List String :=
  strSplitSlash (normSlash path)

/-- The full first-match classification of one entry, as performed by the
loop body (lines 173–218): directories are skipped, a `__categories__`
sentinel is routed to the category registry (not a bucket), `.html` entries
go through `htmlBucket`, everything else is unbucketed. -/
def classifyEntry (path : String) (is_dir : Bool) : Option Bucket :=
  if is_dir then none
  else if (pathParts path).getLastD "" = "__categories__" then none
  else if strEndsWith path ".html" then htmlBucket path
  else none

/-- The six bucket lists built by the classification loop (appended in
source order). -/
structure Buckets where
  gm : List HBKEntry
  ge : List HBKEntry
  gc : List HBKEntry
  oc : List HBKEntry
  oe : List HBKEntry
  oo : List HBKEntry
deriving Repr

def Buckets.empty : Buckets := ⟨[], [], [], [], [], []⟩

def Buckets.push (B : Buckets) : Bucket → HBKEntry → Buckets
  | .global_methods, e => { B with gm := B.gm ++ [e] }
  | .global_events, e => { B with ge := B.ge ++ [e] }
  | .global_context, e => { B with gc := B.gc ++ [e] }
  | .object_constructors, e => { B with oc := B.oc ++ [e] }
  | .object_events, e => { B with oe := B.oe ++ [e] }
  | .other_objects, e => { B with oo := B.oo ++ [e] }

/-- Total number of bucketed entries. -/
def Buckets.total (B : Buckets) : Nat :=
  B.gm.length + B.ge.length + B.gc.length + B.oc.length + B.oe.length +
    B.oo.length

/-- `len(max([...], key=len))`: the length of the longest bucket. -/
def Buckets.maxLen (B : Buckets) : Nat :=
  max B.gm.length (max B.ge.length (max B.gc.length
    (max B.oc.length (max B.oe.length B.oo.length))))

/-- Accumulator of the classification loop: statistics counters, the
buckets, and the categories mapping that `_parse_categories_file` writes
into the result. -/
structure ClassState where
  processed_entries : Nat
  html_files : Nat
  st_files : Nat
  category_files : Nat
  B : Buckets
  categories : List (String × CategoryInfo)

/-- Overwrite-or-append update of the `result.categories` mapping
(`result.categories[section_name] = category`). -/
def updateCategories (cats : List (String × CategoryInfo)) (k : String)
    (v : CategoryInfo) : List (String × CategoryInfo) :=
  if cats.any (fun p => p.1 = k) then
    cats.map (fun p => if p.1 = k then (k, v) else p)
  else cats ++ [(k, v)]

/-- `_parse_categories_file` (source lines 396–440): returns immediately
when `entry.content` is unset; otherwise decodes the bytes (encoding loop
modelled by the `decodeBytes` oracle, returning `none` when no supported
encoding succeeds), derives the section name from the parent path segment,
scans for a version token (`findVersion` oracle models the
`8\.\d+\.\d+` regex search over lines mentioning a version), and stores
the `CategoryInfo` under the section name. -/
def parseCategoriesFile (O : Oracles) (e : HBKEntry)
    (cats : List (String × CategoryInfo)) : List (String × CategoryInfo) :=
  match e.content with
  | none => cats
  | some bytes =>
    match O.decodeBytes bytes with
    | none => cats
    | some text =>
      let parts := pathParts e.path
      let sec := if parts.length > 1 then parts.getD (parts.length - 2) ""
                 else "unknown"
      let cat : CategoryInfo :=
        { name := sec, section_name := sec,
          description := "Раздел документации: " ++ sec,
          version_from := O.findVersion text }
      updateCategories cats sec cat

/-- One iteration of the classification loop body below the cadence check
(source lines 173–218). -/
def classifyOne (O : Oracles) (e : HBKEntry) (s : ClassState) : ClassState :=
  if e.is_dir then s
  else
    let parts := pathParts e.path
    if parts.getLastD "" = "__categories__" then
      { s with category_files := s.category_files + 1,
               categories := parseCategoriesFile O e s.categories }
    else if strEndsWith e.path ".html" then
      let s := { s with html_files := s.html_files + 1 }
      match htmlBucket e.path with
      | some b => { s with B := s.B.push b e }
      | none => s
    else if strEndsWith e.path ".st" then
      { s with st_files := s.st_files + 1 }
    else s

/-- The classification loop (source lines 157–218): increments the
processed-entries counter, performs the wall-clock cadence check every 10
entries (`break` once `time.time() - start_time > 30`, i.e. reading
`p / 10` minus reading 0; natural subtraction is exact because wall-clock
readings are non-decreasing), then classifies the entry. -/
def classifyLoop (O : Oracles) : List HBKEntry → ClassState → ClassState
  | [], s => s
  | e :: rest, s =>
    let p := s.processed_entries + 1
    if p % 10 = 0 ∧ 30 < O.clock (p / 10) - O.clock 0 then
      { s with processed_entries := p }
    else
      classifyLoop O rest (classifyOne O e { s with processed_entries := p })

/-- `entries[:-48] if len(entries) > 48 else entries` (source line 153). -/
def safeEntries (entries : List HBKEntry) : List HBKEntry :=
  if entries.length > 48 then entries.take (entries.length - 48) else entries

/-! ## Extraction scheduler (`_analyze_structure`, lines 220–326) -/

/-- Number of documents of a given kind in a document list
(`check_found_types` recomputes `target_types` by counting
`result.documentation` per `doc.type.name`; every kind of the closed enum is
a key of `target_types`). -/
def countKind (docs : List Documentation) (k : DocumentType) : Nat :=
  (docs.filter (fun d => d.type = k)).length

/-- Scheduler state: `processed_html`, the result's document list, the six
`categories_processed` cursors, and the `target_types` counters (a total
map over the closed kind enum). -/
structure SchedState where
  processed : Nat
  docs : List Documentation
  cgm : Nat
  cge : Nat
  cgc : Nat
  coc : Nat
  coe : Nat
  coo : Nat
  tt : DocumentType → Nat

/-- `_create_document_from_html` (source lines 354–394): take the entry's
pre-loaded content if present, otherwise extract on demand; if no bytes or
the HTML collaborator returns no record, log and return without appending;
otherwise append the record.  The caller (the scheduler) increments
`processed_html` unconditionally after the call, which is folded in here.
The locals `doc_name`/`category` computed in the source are never passed to
the collaborator and are omitted. -/
def processEntry (O : Oracles) (e : HBKEntry) (s : SchedState) : SchedState :=
  let content := match e.content with
    | some c => some c
    | none => O.extractContent e.path
  let doc : Option Documentation := match content with
    | none => none
    | some c => O.parseHtml c e.path
  { s with docs := s.docs ++ doc.toList, processed := s.processed + 1 }

/-- The placeholder entry for out-of-bounds bucket indexing (the guard
`cursor + i < len(bucket)` ensures it is never selected). -/
def defaultEntry : HBKEntry := ⟨"", 0, false, none⟩

/-- One iteration `i` of a bucket's `for i in range(batch_size)` loop
(e.g. source lines 262–270): entry `cursor + i` is processed when it exists
and the bucket's type-gate (over the `target_types` counters, which do not
change within a round) holds. -/
def bucketStep (O : Oracles) (bucket : List HBKEntry) (cursor : Nat)
    (gate : (DocumentType → Nat) → Bool) (st : SchedState) (i : Nat) :
    SchedState :=
  if cursor + i < bucket.length ∧ gate st.tt then
    processEntry O (bucket.getD (cursor + i) defaultEntry) st
  else st

/-- One full `for i in range(batch_size)` pass over one bucket; the cursor
itself advances only after the loop. -/
def bucketRound (O : Oracles) (batch : Nat) (bucket : List HBKEntry)
    (cursor : Nat) (gate : (DocumentType → Nat) → Bool)
    (s : SchedState) : SchedState :=
  (List.range batch).foldl (bucketStep O bucket cursor gate) s

/-- One iteration of the `while` loop (source lines 257–326 minus the
stop tests): the six buckets in fixed priority order, each followed by its
unconditional cursor advance, then the `target_types` recount from the
produced documents. -/
def runPass (O : Oracles) (mpt : Option Nat) (batch : Nat) (B : Buckets)
    (s : SchedState) : SchedState :=
  let s1 := bucketRound O batch B.gm s.cgm
    (fun tt => ltO (tt .GLOBAL_FUNCTION) mpt || ltO (tt .GLOBAL_PROCEDURE) mpt) s
  let s1 := { s1 with cgm := s1.cgm + batch }
  let s2 := bucketRound O batch B.ge s1.cge
    (fun tt => ltO (tt .GLOBAL_EVENT) mpt) s1
  let s2 := { s2 with cge := s2.cge + batch }
  let s3 := bucketRound O batch B.gc s2.cgc
    (fun tt => ltO (tt .OBJECT_PROPERTY) mpt) s2
  let s3 := { s3 with cgc := s3.cgc + batch }
  let s4 := bucketRound O batch B.oc s3.coc
    (fun tt => ltO (tt .OBJECT_CONSTRUCTOR) mpt) s3
  let s4 := { s4 with coc := s4.coc + batch }
  let s5 := bucketRound O batch B.oe s4.coe
    (fun tt => ltO (tt .OBJECT_EVENT) mpt) s4
  let s5 := { s5 with coe := s5.coe + batch }
  let s6 := bucketRound O batch B.oo s5.coo
    (fun tt => ltO (tt .OBJECT_FUNCTION) mpt || ltO (tt .OBJECT_PROCEDURE) mpt ||
               ltO (tt .OBJECT) mpt) s5
  let s6 := { s6 with coo := s6.coo + batch }
  { s6 with tt := fun k => countKind s6.docs k }

/-- `all_types_found()` (source lines 228–237): `False` when both limits
are `None`; otherwise `types_satisfied or total_satisfied`, each defaulting
to `True` when its limit is falsy (Python truthiness: `None` and `0`). -/
def allTypesFound (cfg : HBKParser) (tt : DocumentType → Nat)
    (processed : Nat) : Bool :=
  if cfg.max_files_per_type = none ∧ cfg.max_total_files = none then false
  else
    (if pyTruthy cfg.max_files_per_type then
       allKinds.all (fun k => cfg.max_files_per_type.getD 0 ≤ tt k)
     else true) ||
    (if pyTruthy cfg.max_total_files then
       cfg.max_total_files.getD 0 ≤ processed
     else true)

/-- The scheduler's `while not all_types_found() and processed_html <
max_total` loop with its zero-progress `break`, as a fuel-indexed
recursion.  The caller passes fuel `B.total + 2`: every non-final iteration
strictly increases `processed_html`, each bucket yields at most
`len(bucket)` processed entries over the whole run (cursors advance by
`batch ≥ number processed` per round), so the loop body can run at most
`B.total + 1` times and the fuel is never exhausted. -/
def schedLoop (O : Oracles) (cfg : HBKParser) (B : Buckets) (batch : Nat) :
    Nat → SchedState → SchedState
  | 0, s => s
  | fuel + 1, s =>
    if ¬ allTypesFound cfg s.tt s.processed ∧
       ltO s.processed (orInf cfg.max_total_files) then
      let s' := runPass O (orInf cfg.max_files_per_type) batch B s
      if s'.processed = s.processed then s'
      else schedLoop O cfg B batch fuel s'
    else s

/-- The initial accumulator of the classification loop, as built by
`_analyze_structure` (all counters zero, empty buckets, the result's
current categories mapping). -/
def initClassState (cats : List (String × CategoryInfo)) : ClassState :=
  { processed_entries := 0, html_files := 0, st_files := 0,
    category_files := 0, B := Buckets.empty, categories := cats }

/-- `_analyze_structure` (source lines 110–352): tail-exclusion, the
classification loop, batch-size selection, the scheduler loop, and the
final statistics block written into the result. -/
def analyzeStructure (cfg : HBKParser) (O : Oracles)
    (entries : List HBKEntry) (res : ParsedHBK) : ParsedHBK :=
  let safe := safeEntries entries
  let cs := classifyLoop O safe (initClassState res.categories)
  let batch :=
    if pyTruthy cfg.max_files_per_type || pyTruthy cfg.max_total_files then 5
    else min 100 cs.B.maxLen
  let s0 : SchedState :=
    { processed := 0, docs := res.documentation,
      cgm := 0, cge := 0, cgc := 0, coc := 0, coe := 0, coo := 0,
      tt := fun _ => 0 }
  let fin := schedLoop O cfg cs.B batch (cs.B.total + 2) s0
  { res with
    documentation := fin.docs,
    categories := cs.categories,
    stats := some
      { html_files := cs.html_files,
        global_methods_files := cs.B.gm.length,
        global_events_files := cs.B.ge.length,
        global_context_files := cs.B.gc.length,
        object_constructors_files := cs.B.oc.length,
        object_events_files := cs.B.oe.length,
        other_object_files := cs.B.oo.length,
        processed_html := fin.processed,
        cp_global_methods := fin.cgm,
        cp_global_events := fin.cge,
        cp_global_context := fin.cgc,
        cp_object_constructors := fin.coc,
        cp_object_events := fin.coe,
        cp_other_objects := fin.coo,
        found_types := fin.tt,
        st_files := cs.st_files,
        category_files := cs.category_files,
        total_entries := entries.length } }

/-! ## Archive listing (`_extract_external_7z`, lines 442–586) -/

/-- The fixed probe order of candidate archive-tool commands
(source lines 447–458). -/
def zipCommands : List String :=
  ["7z", "7z.exe", "7za", "7za.exe",
   "C:\\Program Files\\7-Zip\\7z.exe",
   "C:\\Program Files (x86)\\7-Zip\\7z.exe",
   "7-Zip\\7z.exe", "7zip\\7z.exe"]

/-- Probe loop (source lines 461–471): first command whose bare invocation
succeeds with exit code 0 or prints a recognizable version banner; a raised
`SafeSubprocessError` (oracle `none`) moves on to the next candidate. -/
def probe7z (O : Oracles) : List String → Option String
  | [] => none
  | cmd :: rest =>
    match O.subproc [cmd] with
    | none => probe7z O rest
    | some r =>
      if r.returncode = 0 || strContains r.stdout "Igor Pavlov" ||
         strContains r.stdout "7-Zip" then some cmd
      else probe7z O rest

/-- One line of the primary (7zip) listing grammar (source lines 559–580):
columns date, time, attributes, size, compressed size, name; attribute `D`
marks a directory; `content` is always `None`. -/
def parse7zLine (line : String) : Option HBKEntry :=
  let parts := pySplitWs line
  if parts.length ≥ 6 then
    let filename := joinSpace (parts.drop 5)
    if filename ≠ "" ∧ ¬ strStartsWith filename "Date" then
      let size := (pyParseNat (parts.getD 3 "")).getD 0
      let attrs := parts.getD 2 ""
      let is_dir := if attrs.data.length = 1 then attrs = "D" else false
      some { path := filename, size := size, is_dir := is_dir, content := none }
    else none
  else none

/-- The primary listing parser (source lines 551–580): a `---------------`
delimiter line toggles the file-table section; rows inside the section with
at least 6 columns become entries. -/
def parse7zRows (inSec : Bool) : List String → List HBKEntry
  | [] => []
  | line :: rest =>
    if strContains line "---------------" then parse7zRows (!inSec) rest
    else if inSec ∧ pyStrip line ≠ "" then
      (parse7zLine line).toList ++ parse7zRows inSec rest
    else parse7zRows inSec rest

def parse7zListing (stdout : String) : List HBKEntry :=
  parse7zRows false (splitLines stdout)

/-- One line of the fallback (unzip) listing grammar (source lines
521–537): columns length, date, time, name; a trailing `/` marks a
directory and is stripped; `content` is always `None`. -/
def parseUnzipLine (line : String) : Option HBKEntry :=
  let parts := pySplitWs line
  if parts.length ≥ 4 then
    let size := (pyParseNat (parts.getD 0 "")).getD 0
    let filename := joinSpace (parts.drop 3)
    if filename ≠ "" then
      some { path := rstripSlash filename, size := size,
             is_dir := strEndsWith filename "/", content := none }
    else none
  else none

/-- The fallback listing parser (source lines 508–537): the file table
starts after a dashed separator line and a second dashed line ends it
(`break`). -/
def parseUnzipRows (inSec : Bool) : List String → List HBKEntry
  | [] => []
  | line :: rest =>
    if inSec then
      if strStartsWith (pyStrip line) "------" then []
      else (parseUnzipLine line).toList ++ parseUnzipRows true rest
    else
      if strStartsWith (pyStrip line) "------" then parseUnzipRows true rest
      else parseUnzipRows false rest

def parseUnzipListing (stdout : String) : List HBKEntry :=
  parseUnzipRows false (splitLines stdout)

/-- `_extract_external_7z` (source lines 442–586): probe for a tool, list
the archive, fall back to `unzip -l` when the primary listing exits
non-zero, and raise (`Except.error`, modelling `HBKParserError`) when no
listing can be obtained.  The retained working command and archive path for
later single-file extraction are modelled by the `extractContent` oracle. -/
def extractExternal7z (O : Oracles) (path : String) :
    Except String (List HBKEntry) :=
  match probe7z O zipCommands with
  | none => .error "7zip не найден в системе. Проверьте установку 7-Zip"
  | some cmd =>
    match O.subproc [cmd, "l", path] with
    | none => .error "Ошибка чтения архива"
    | some r =>
      if r.returncode ≠ 0 then
        match O.subproc ["unzip", "-l", path] with
        | none => .error "Ошибка чтения архива"
        | some u =>
          if u.returncode ≠ 0 then
            .error ("Ошибка чтения архива: " ++ u.stderr)
          else
            let es := parseUnzipListing u.stdout
            if es.isEmpty then
              .error "Не удалось прочитать структуру архива через 7zip или unzip"
            else .ok es
      else .ok (parse7zListing r.stdout)

/-- `_extract_archive` (source lines 97–108): any raised error is caught
and becomes an empty entry list; an empty successful listing is also
returned as the empty list. -/
def extractArchive (O : Oracles) (path : String) : List HBKEntry :=
  match extractExternal7z O path with
  | .ok es => es
  | .error _ => []

/-! ## Pipeline entry points (`parse_file`, `parse_single_file_from_archive`) -/

/-- The on-disk input file handed to `parse_file`: its path and the results
of the `stat` calls. -/
structure InputFile where
  path : String
  size : Nat
  modified : Nat

/-- Modelled from the spec: `validate_file_path` from the absent
`src/core/utils.py`.  Spec §4.1: pre-flight validation rejects unsupported
extensions (`ValidationFailed`) before any subprocess is spawned; the two
size checks are performed by `parse_file` itself (source lines 56–67). -/
def validate_file_path (path : String) : Bool :=
  [".hbk", ".zip", ".7z"].any (fun e => strEndsWith path e)

/-- The fresh result aggregate built at source lines 70–76. -/
def initResult (f : InputFile) : ParsedHBK :=
  { file_info := { path := f.path, size := f.size, modified := f.modified,
                   entries_count := 0 },
    documentation := [], categories := [], stats := none, errors := [] }

/-- `parse_file` (source lines 44–95): validation and the two size gates
(`None` on failure, before any subprocess runs), then listing — an empty or
failed listing yields a result carrying an error string — then structure
analysis.  The enclosing `except Exception` at lines 92–95 has nothing to
catch: every embedded step is total. -/
def parse_file (cfg : HBKParser) (O : Oracles) (f : InputFile) :
    Option ParsedHBK :=
  if ¬ validate_file_path f.path then none
  else if cfg.maxFileSize < f.size then none
  else if f.size < 1024 * 1024 then none
  else
    let res := initResult f
    let entries := extractArchive O f.path
    if entries.isEmpty then
      some { res with errors := res.errors ++ ["Не удалось извлечь файлы из архива"] }
    else
      let res := { res with
        file_info := { res.file_info with entries_count := entries.length } }
      some (analyzeStructure cfg O entries res)

/-- The call `self._get_7zip_command()` at source line 643+ (line 674): no
method of that name is defined by `HBKParser` or anywhere else in the
repository's source files, so Python attribute lookup raises
`AttributeError`, modelled as `Except.error` with the interpreter's
message. -/
def getSevenZipCmd : Except String String :=
  .error "'HBKParser' object has no attribute '_get_7zip_command'"

/-- The body of the `try` block of `parse_single_file_from_archive`
(source lines 672–715).  The first statement raises (see
`getSevenZipCmd`), so everything after the bind is dead code; it is
embedded anyway, following the source: falsy command → error entry; no
extracted bytes → error entry; non-HTML target → error entry; otherwise
decode (`errors='ignore'`, never raises; folded into the oracle) and
convert, appending the record and setting `entries_count := 1` on success.
Note the source appends to `result.documents`, an attribute the data model
does not define elsewhere (`parse_file` uses `result.documentation`);
the generous reading `documentation` is used here. -/
def parseSingleBody (O : Oracles) (res : ParsedHBK) (target : String) :
    Except String ParsedHBK := do
  let zipCmd ← getSevenZipCmd
  if zipCmd = "" then
    pure { res with errors := res.errors ++ ["7zip не найден"] }
  else
    match O.extractContent target with
    | none =>
      pure { res with errors := res.errors ++ ["Не удалось извлечь файл: " ++ target] }
    | some content =>
      if strEndsWith (strLower target) ".html" then
        match O.parseHtml content target with
        | some doc =>
          pure { res with
            documentation := res.documentation ++ [doc],
            file_info := { res.file_info with entries_count := 1 } }
        | none =>
          pure { res with errors := res.errors ++ ["Не удалось распарсить HTML: " ++ target] }
      else
        pure { res with errors := res.errors ++ ["Файл не является HTML: " ++ target] }

/-- `parse_single_file_from_archive` (source lines 643–720): validation,
then the `try` body; any raised error is caught by the `except` at lines
717–720, which appends the message and returns the result built so far. -/
def parse_single_file_from_archive (O : Oracles) (archive : InputFile)
    (target : String) : Option ParsedHBK :=
  if ¬ validate_file_path archive.path then none
  else
    let res := initResult archive
    match parseSingleBody O res target with
    | .ok r => some r
    | .error e => some { res with errors := res.errors ++ ["Ошибка извлечения: " ++ e] }

/-! ## Observation helpers -/

/-- Number of documentation records in an optional result (0 for `None`). -/
def optDocLen : Option ParsedHBK → Nat
  | none => 0
  | some r => r.documentation.length

/-- Error list of an optional result. -/
def optErrors : Option ParsedHBK → List String
  | none => []
  | some r => r.errors

/-- Categories mapping of an optional result. -/
def optCategories : Option ParsedHBK → List (String × CategoryInfo)
  | none => []
  | some r => r.categories

/-- Per-kind document count of an optional result. -/
def optKindCount (o : Option ParsedHBK) (k : DocumentType) : Nat :=
  match o with
  | none => 0
  | some r => countKind r.documentation k

/-- `entries_count` of an optional result. -/
def optEntriesCount : Option ParsedHBK → Nat
  | none => 0
  | some r => r.file_info.entries_count

/-- Every entry held in any of the six buckets has unset content (the
invariant that makes `_parse_categories_file` and the lazy-content branch
of `_create_document_from_html` unreachable in full runs). -/
def BucketsAllNone (B : Buckets) : Prop :=
  (∀ e ∈ B.gm, e.content = none) ∧ (∀ e ∈ B.ge, e.content = none) ∧
  (∀ e ∈ B.gc, e.content = none) ∧ (∀ e ∈ B.oc, e.content = none) ∧
  (∀ e ∈ B.oe, e.content = none) ∧ (∀ e ∈ B.oo, e.content = none)

/-! ## Concrete fixtures for witnesses and counterexamples

Archives are presented to the pipeline exactly as the external tool would:
as the raw stdout of a `7z l` invocation, which the embedded listing parser
turns into entries. -/

/-- One row of a 7zip listing table for a regular file (columns: date,
time, attributes, size, compressed size, name). -/
def fxRow (p : String) : String :=
  "d t ....A 10 10 " ++ p ++ "\n"

/-- Oracles for a healthy archive: the probe finds `7z`, listing the fixed
archive path returns `listing`, every single-file extraction succeeds, and
the HTML collaborator returns a record whose kind is derived from marker
letters in the file name. -/
def fxOracles (listing : String) (clk : Nat → Nat) : Oracles :=
  { subproc := fun args =>
      if args = ["7z"] then some ⟨0, "7-Zip 19.00", ""⟩
      else if args = ["7z", "l", "/docs/1c.hbk"] then some ⟨0, listing, ""⟩
      else none,
    extractContent := fun _ => some "<html/>",
    parseHtml := fun _ p => some ⟨p,
      if strContains p "/gf" then .GLOBAL_FUNCTION
      else if strContains p "/gp" then .GLOBAL_PROCEDURE
      else if strContains p "/ge" then .GLOBAL_EVENT
      else if strContains p "/pr" then .OBJECT_PROPERTY
      else if strContains p "/ct" then .OBJECT_CONSTRUCTOR
      else if strContains p "/oe" then .OBJECT_EVENT
      else if strContains p "/of" then .OBJECT_FUNCTION
      else if strContains p "/op" then .OBJECT_PROCEDURE
      else if strContains p "/m" then .GLOBAL_FUNCTION
      else .OBJECT⟩,
    decodeBytes := fun _ => none,
    findVersion := fun _ => none,
    clock := clk }

/-- Oracles for an unavailable archive: every subprocess raises and every
extraction fails. -/
def fxDeadOracles : Oracles :=
  { subproc := fun _ => none,
    extractContent := fun _ => none,
    parseHtml := fun _ _ => none,
    decodeBytes := fun _ => none,
    findVersion := fun _ => none,
    clock := fun _ => 0 }

/-- A valid 2 MB `.hbk` input file. -/
def fxFile : InputFile := ⟨"/docs/1c.hbk", 2 * 1024 * 1024, 0⟩

/-- 15 HTML entries, five per Global-context bucket (methods / events /
properties). -/
def fxListing15 : String :=
  "x\n---------------\n" ++
  fxRow "objects/Global context/methods/m1.html" ++
  fxRow "objects/Global context/methods/m2.html" ++
  fxRow "objects/Global context/methods/m3.html" ++
  fxRow "objects/Global context/methods/m4.html" ++
  fxRow "objects/Global context/methods/m5.html" ++
  fxRow "objects/Global context/events/ge1.html" ++
  fxRow "objects/Global context/events/ge2.html" ++
  fxRow "objects/Global context/events/ge3.html" ++
  fxRow "objects/Global context/events/ge4.html" ++
  fxRow "objects/Global context/events/ge5.html" ++
  fxRow "objects/Global context/props/pr1.html" ++
  fxRow "objects/Global context/props/pr2.html" ++
  fxRow "objects/Global context/props/pr3.html" ++
  fxRow "objects/Global context/props/pr4.html" ++
  fxRow "objects/Global context/props/pr5.html" ++
  "---------------\n"

/-- 21 HTML entries, at least two producing each of the nine
documentation kinds, with five object-event entries. -/
def fxListing21 : String :=
  "x\n---------------\n" ++
  fxRow "objects/Global context/methods/gf1.html" ++
  fxRow "objects/Global context/methods/gf2.html" ++
  fxRow "objects/Global context/methods/gp1.html" ++
  fxRow "objects/Global context/methods/gp2.html" ++
  fxRow "objects/Global context/events/ge1.html" ++
  fxRow "objects/Global context/events/ge2.html" ++
  fxRow "objects/Global context/props/pr1.html" ++
  fxRow "objects/Global context/props/pr2.html" ++
  fxRow "objects/Array/ctors/ct1.html" ++
  fxRow "objects/Array/ctors/ct2.html" ++
  fxRow "objects/Array/events/oe1.html" ++
  fxRow "objects/Array/events/oe2.html" ++
  fxRow "objects/Array/events/oe3.html" ++
  fxRow "objects/Array/events/oe4.html" ++
  fxRow "objects/Array/events/oe5.html" ++
  fxRow "objects/Map/of1.html" ++
  fxRow "objects/Map/of2.html" ++
  fxRow "objects/Map/op1.html" ++
  fxRow "objects/Map/op2.html" ++
  fxRow "objects/Map/ob1.html" ++
  fxRow "objects/Map/ob2.html" ++
  "---------------\n"

/-- 5 object-event HTML entries. -/
def fxListing5 : String :=
  "x\n---------------\n" ++
  fxRow "objects/Array/events/oe1.html" ++
  fxRow "objects/Array/events/oe2.html" ++
  fxRow "objects/Array/events/oe3.html" ++
  fxRow "objects/Array/events/oe4.html" ++
  fxRow "objects/Array/events/oe5.html" ++
  "---------------\n"

/-- 12 global-methods HTML entries. -/
def fxListing12 : String :=
  "x\n---------------\n" ++
  fxRow "objects/Global context/methods/m01.html" ++
  fxRow "objects/Global context/methods/m02.html" ++
  fxRow "objects/Global context/methods/m03.html" ++
  fxRow "objects/Global context/methods/m04.html" ++
  fxRow "objects/Global context/methods/m05.html" ++
  fxRow "objects/Global context/methods/m06.html" ++
  fxRow "objects/Global context/methods/m07.html" ++
  fxRow "objects/Global context/methods/m08.html" ++
  fxRow "objects/Global context/methods/m09.html" ++
  fxRow "objects/Global context/methods/m10.html" ++
  fxRow "objects/Global context/methods/m11.html" ++
  fxRow "objects/Global context/methods/m12.html" ++
  "---------------\n"

/-- A wall clock that has already exceeded the 30-unit budget when the
first cadence check reads it. -/
def fxHotClock : Nat → Nat := fun k => if k = 0 then 0 else 100

/-- A plain HTML file entry, used for enumeration-shape witnesses. -/
def fxEntry : HBKEntry :=
  ⟨"objects/Map/x.html", 10, false, none⟩

/-- A raw enumeration of 50 entries. -/
def fxEntries50 : List HBKEntry := List.replicate 50 fxEntry

/-- A raw enumeration of 3 entries. -/
def fxEntries3 : List HBKEntry := List.replicate 3 fxEntry

/-! ## Claim C6 — classification is a pure first-match function of the path -/

/-- C6: classification is a pure first-match function of the entry path:
`objects/Global context/methods/catalog1/StrLen.html` is bucketed as
`global_methods`, `objects/Array/ctors/ctor1.html` as
`object_constructors`, `objects/Array/events/OnChange.html` as
`object_events`, the same holds with `\` separators, and a directory entry
is never bucketed regardless of its path. -/
theorem C6_classification_correct :
    classifyEntry "objects/Global context/methods/catalog1/StrLen.html" false
      = some .global_methods ∧
    classifyEntry "objects/Array/ctors/ctor1.html" false
      = some .object_constructors ∧
    classifyEntry "objects/Array/events/OnChange.html" false
      = some .object_events ∧
    classifyEntry "objects\\Global context\\methods\\catalog1\\StrLen.html" false
      = some .global_methods ∧
    classifyEntry "objects\\Array\\ctors\\ctor1.html" false
      = some .object_constructors ∧
    classifyEntry "objects\\Array\\events\\OnChange.html" false
      = some .object_events ∧
    ∀ p : String, classifyEntry p true = none := by
  refine ⟨by decide, by decide, by decide, by decide, by decide, by decide, ?_⟩
  intro p
  simp [classifyEntry]

/-! ## Claim C8 — fixed 48-entry tail exclusion -/

/-- C8: when the raw enumeration has more than 48 entries, exactly the last
48 are excluded — the classifier receives precisely the first
`length − 48` entries; with 48 or fewer entries, all of them are kept
(`safeEntries` is exactly what `analyzeStructure` feeds to
`classifyLoop`). -/
theorem C8_tail_exclusion (entries : List HBKEntry) :
    (entries.length > 48 →
      safeEntries entries = entries.take (entries.length - 48)) ∧
    (entries.length ≤ 48 → safeEntries entries = entries) := by
  constructor
  · intro h
    simp [safeEntries, h]
  · intro h
    simp [safeEntries, Nat.not_lt.mpr h]

/-- Witness for C8 at concrete inputs: a 50-entry enumeration keeps its
first 2 entries, a 3-entry enumeration is kept whole. -/
theorem C8_tail_exclusion_witness :
    safeEntries fxEntries50 = fxEntries50.take (fxEntries50.length - 48) ∧
    safeEntries fxEntries3 = fxEntries3 :=
  ⟨(C8_tail_exclusion fxEntries50).1 (by decide),
   (C8_tail_exclusion fxEntries3).2 (by decide)⟩

/-! ## Claim C7 — pre-flight validation rejects before any subprocess -/

/-- C7: an input with an unsupported extension, a size above the ceiling,
or a size below the 1 MB plausible-archive threshold is rejected
(`parse_file` returns `none`) for *every* oracle — in particular no
subprocess invocation can influence the outcome, so the rejection happens
before any external call.  (The extension test lives in the spec-modelled
`validate_file_path`; the two size gates are source lines 56–67.) -/
theorem C7_validation_boundary (cfg : HBKParser) (O : Oracles)
    (f : InputFile)
    (h : validate_file_path f.path = false ∨ cfg.maxFileSize < f.size ∨
         f.size < 1024 * 1024) :
    parse_file cfg O f = none := by
  unfold parse_file
  rcases h with h | h | h
  · simp [h]
  · by_cases hv : validate_file_path f.path
    · simp [hv, h]
    · simp [hv]
  · by_cases hv : validate_file_path f.path
    · by_cases hm : cfg.maxFileSize < f.size
      · simp [hv, hm]
      · simp [hv, hm, h]
    · simp [hv]

/-- Witness for C7: a `.txt` file and a 500 KB (512000-byte) `.hbk` file
are both rejected, even with fully healthy oracles. -/
theorem C7_validation_boundary_witness :
    parse_file ⟨none, none, 100 * 1024 * 1024⟩ (fxOracles fxListing5 (fun _ => 0))
      ⟨"/docs/readme.txt", 2 * 1024 * 1024, 0⟩ = none ∧
    parse_file ⟨none, none, 100 * 1024 * 1024⟩ (fxOracles fxListing5 (fun _ => 0))
      ⟨"/docs/1c.hbk", 512000, 0⟩ = none :=
  ⟨C7_validation_boundary _ _ _ (Or.inl (by decide)),
   C7_validation_boundary _ _ _ (Or.inr (Or.inr (by decide)))⟩

/-! ## Claim C5 — the single-file entry point (code bug) -/

set_option maxRecDepth 4000 in
/-- C5 (code bug): on a valid archive and an HTML entry whose extraction
and conversion both succeed, `parse_single_file_from_archive` still
returns zero documentation records, `entries_count = 0`, and the caught
`AttributeError` in its error list — because its body calls
`self._get_7zip_command()` (source line 674), a method no source file of
the repository defines.  The claim's promised outcome (exactly one record,
`entries_count = 1`) is unreachable. -/
theorem C5_single_file_bug :
    parse_single_file_from_archive (fxOracles fxListing5 (fun _ => 0)) fxFile
        "objects/Global context/methods/catalog4838/StrLen912.html" =
      some { initResult fxFile with
             errors := ["Ошибка извлечения: 'HBKParser' object has no attribute '_get_7zip_command'"] } ∧
    optDocLen (parse_single_file_from_archive (fxOracles fxListing5 (fun _ => 0))
        fxFile "objects/Global context/methods/catalog4838/StrLen912.html") = 0 ∧
    optEntriesCount (parse_single_file_from_archive (fxOracles fxListing5 (fun _ => 0))
        fxFile "objects/Global context/methods/catalog4838/StrLen912.html") = 0 := by
  refine ⟨?_, by decide, by decide⟩
  rfl

/-! ## Claim C1 — total cap (counterexample and amended bound) -/

set_option maxRecDepth 10000 in
/-- Counterexample to C1 as stated: with `max_total_files = 10` (and
`max_files_per_type = 100`), an archive holding five entries in each of
three buckets yields 15 documentation records — the total quota is only
re-checked at round boundaries, and one round materializes up to
6 buckets × batch 5 = 30 entries. -/
theorem C1_total_cap_counterexample :
    optDocLen (parse_file ⟨some 100, some 10, 100 * 1024 * 1024⟩
        (fxOracles fxListing15 (fun _ => 0)) fxFile) = 15 ∧
    ¬ optDocLen (parse_file ⟨some 100, some 10, 100 * 1024 * 1024⟩
        (fxOracles fxListing15 (fun _ => 0)) fxFile) ≤ 10 := by
  constructor
  · decide
  · decide

/-! ## Claim C2 — per-kind quota (counterexample and amended statement) -/

set_option maxRecDepth 10000 in
/-- Counterexample to C2 as stated: with `max_files_per_type = 2` (and a
total quota of 100 so that the scheduler runs at all), an archive holding
at least two entries for every documentation kind and five object-event
entries produces **five** OBJECT_EVENT records: the per-kind counters are
recomputed only at round boundaries, so the whole batch of five is
materialized although the quota is 2. -/
theorem C2_quota_counterexample :
    optKindCount (parse_file ⟨some 2, some 100, 100 * 1024 * 1024⟩
        (fxOracles fxListing21 (fun _ => 0)) fxFile) .OBJECT_EVENT = 5 ∧
    ¬ optKindCount (parse_file ⟨some 2, some 100, 100 * 1024 * 1024⟩
        (fxOracles fxListing21 (fun _ => 0)) fxFile) .OBJECT_EVENT ≤ 2 := by
  constructor
  · decide
  · decide

/-! ## Claim C9 — a quota of 0 (counterexample and amended statement) -/

set_option maxRecDepth 10000 in
/-- Counterexample to C9 as stated: passing `0` for `max_files_per_type`
does *not* behave like `None`: on a five-entry archive the run with quota
`0` materializes zero entries, while the identically configured run with
the quota unset materializes all five.  (`0` is falsy in the quota
defaults, but the `is None` test in `all_types_found` fails for `0`, so
the stop check reports satisfaction immediately.) -/
theorem C9_zero_quota_counterexample :
    optDocLen (parse_file ⟨some 0, none, 100 * 1024 * 1024⟩
        (fxOracles fxListing5 (fun _ => 0)) fxFile) = 0 ∧
    optDocLen (parse_file ⟨none, none, 100 * 1024 * 1024⟩
        (fxOracles fxListing5 (fun _ => 0)) fxFile) = 5 := by
  constructor
  · decide
  · decide

/-! ## Claim C3 — wall-clock budget (counterexample and amended statement) -/

set_option maxRecDepth 10000 in
/-- Counterexample to C3 as stated: with a wall clock already past the
30-unit ceiling at the very first cadence check (reading 100 at every
check), a 12-entry archive still ends the run with **nine** materialized
documents: the classification loop breaks at its 10th entry, but the
extraction phase contains no budget check at all and drains the bucketed
entries, so the run does not stop processing once the budget is
exceeded. -/
theorem C3_budget_counterexample :
    optDocLen (parse_file ⟨none, none, 100 * 1024 * 1024⟩
        (fxOracles fxListing12 fxHotClock) fxFile) = 9 ∧
    ¬ optDocLen (parse_file ⟨none, none, 100 * 1024 * 1024⟩
        (fxOracles fxListing12 fxHotClock) fxFile) = 0 := by
  constructor
  · decide
  · decide

/-! ## Helper lemmas: runs in which the scheduler's stop test fires at once -/

/-- If the stop test already reports satisfaction, the scheduler loop
returns its state unchanged, for any fuel. -/
lemma schedLoop_stop (O : Oracles) (cfg : HBKParser) (B : Buckets)
    (batch fuel : Nat) (s : SchedState)
    (h : allTypesFound cfg s.tt s.processed = true) :
    schedLoop O cfg B batch fuel s = s := by
  cases fuel with
  | zero => rfl
  | succ n => simp [schedLoop, h]

/-- When the per-kind quota is set but the total quota is falsy
(`None` or `0`), `all_types_found` is immediately `True`:
`total_satisfied` defaults to `True` and the test disjoins it. -/
lemma allTypesFound_of_total_falsy (cfg : HBKParser)
    (h1 : cfg.max_files_per_type ≠ none)
    (h2 : pyTruthy cfg.max_total_files = false)
    (tt : DocumentType → Nat) (p : Nat) :
    allTypesFound cfg tt p = true := by
  unfold allTypesFound
  rw [if_neg (by intro hc; exact h1 hc.1)]
  simp [h2]

/-- When the per-kind quota is `0`, `types_satisfied` defaults to `True`
(Python truthiness), so `all_types_found` is immediately `True`. -/
lemma allTypesFound_of_types_falsy (cfg : HBKParser)
    (h1 : pyTruthy cfg.max_files_per_type = false)
    (h2 : cfg.max_files_per_type ≠ none ∨ cfg.max_total_files ≠ none)
    (tt : DocumentType → Nat) (p : Nat) :
    allTypesFound cfg tt p = true := by
  unfold allTypesFound
  rw [if_neg (by intro hc; rcases h2 with h | h; exacts [h hc.1, h hc.2])]
  simp [h1]

/-- If the stop test fires on the all-zero counters, `_analyze_structure`
materializes nothing: the result's document list is exactly the one it was
handed. -/
lemma analyzeStructure_docs_stop (cfg : HBKParser) (O : Oracles)
    (entries : List HBKEntry) (res : ParsedHBK)
    (h : ∀ tt p, allTypesFound cfg tt p = true) :
    (analyzeStructure cfg O entries res).documentation = res.documentation := by
  unfold analyzeStructure
  dsimp only
  rw [schedLoop_stop _ _ _ _ _ _ (h _ _)]

/-- If the stop test always fires, `parse_file` produces no documents on
any input and with any oracles. -/
lemma parse_file_docs_stop (cfg : HBKParser) (O : Oracles) (f : InputFile)
    (h : ∀ tt p, allTypesFound cfg tt p = true) :
    optDocLen (parse_file cfg O f) = 0 := by
  unfold parse_file
  split
  · rfl
  split
  · rfl
  split
  · rfl
  dsimp only
  split
  · rfl
  · show (analyzeStructure cfg O _ _).documentation.length = 0
    rw [analyzeStructure_docs_stop _ _ _ _ h]
    rfl

/-- A kind's count never exceeds the total number of documents. -/
lemma optKindCount_le_optDocLen (o : Option ParsedHBK) (k : DocumentType) :
    optKindCount o k ≤ optDocLen o := by
  cases o with
  | none => exact Nat.le_refl 0
  | some r => exact List.length_filter_le _ _

set_option maxRecDepth 2000 in
/-- C2 (amended): per-kind counts are compared with the quota only at round
boundaries, so a kind can exceed `max_files_per_type = 2` by up to the
batch size within a round (see the counterexample); and whenever the
per-kind quota is set while the total quota is unset, the stop test
`all_types_found` is satisfied immediately (`total_satisfied` defaults to
`True`), the scheduler never runs, and the result holds zero documents —
so in those runs no kind's count exceeds 2, vacuously. -/
theorem C2_quota_amended (cfg : HBKParser) (O : Oracles) (f : InputFile)
    (k : Nat) (h1 : cfg.max_files_per_type = some k)
    (h2 : cfg.max_total_files = none) :
    optDocLen (parse_file cfg O f) = 0 ∧
    ∀ kd, optKindCount (parse_file cfg O f) kd ≤ 2 := by
  have hd : optDocLen (parse_file cfg O f) = 0 :=
    parse_file_docs_stop cfg O f
      (allTypesFound_of_total_falsy cfg (by simp [h1]) (by simp [h2, pyTruthy]))
  exact ⟨hd, fun kd => le_trans (le_trans (optKindCount_le_optDocLen _ kd)
    (le_of_eq hd)) (by omega)⟩

/-- Witness for C2 (amended): quota 2, total quota unset, a five-entry
archive with healthy oracles — zero documents, every kind count ≤ 2. -/
theorem C2_quota_amended_witness :
    optDocLen (parse_file ⟨some 2, none, 100 * 1024 * 1024⟩
        (fxOracles fxListing5 (fun _ => 0)) fxFile) = 0 ∧
    ∀ kd, optKindCount (parse_file ⟨some 2, none, 100 * 1024 * 1024⟩
        (fxOracles fxListing5 (fun _ => 0)) fxFile) kd ≤ 2 :=
  C2_quota_amended ⟨some 2, none, 100 * 1024 * 1024⟩
    (fxOracles fxListing5 (fun _ => 0)) fxFile 2 rfl rfl

set_option maxRecDepth 2000 in
/-- C9 (amended): passing `0` for a quota disables the numeric limit in the
`or float('inf')` defaults, but `0` is not `None` in the stop test's
`is None` guard while still being falsy in its truthiness branches, so the
stop test is satisfied immediately: a run configured with a quota of 0
materializes **zero** entries, not every entry. -/
theorem C9_zero_quota_amended (cfg : HBKParser) (O : Oracles) (f : InputFile)
    (h : cfg.max_files_per_type = some 0 ∨ cfg.max_total_files = some 0) :
    optDocLen (parse_file cfg O f) = 0 := by
  apply parse_file_docs_stop
  rcases h with h | h
  · exact allTypesFound_of_types_falsy cfg (by simp [h, pyTruthy])
      (Or.inl (by simp [h]))
  · intro tt p
    unfold allTypesFound
    rw [if_neg (by intro hc; simp [h] at hc)]
    simp [h, pyTruthy]

/-- Witness for C9 (amended): quota 0 on a five-entry archive with healthy
oracles — zero documents. -/
theorem C9_zero_quota_amended_witness :
    optDocLen (parse_file ⟨some 0, none, 100 * 1024 * 1024⟩
        (fxOracles fxListing5 (fun _ => 0)) fxFile) = 0 :=
  C9_zero_quota_amended ⟨some 0, none, 100 * 1024 * 1024⟩
    (fxOracles fxListing5 (fun _ => 0)) fxFile (Or.inl rfl)

/-! ## Helper lemmas: quantitative bounds on the scheduler loop -/

/-- Each processed entry raises `processed_html` by exactly one. -/
lemma processEntry_processed (O : Oracles) (e : HBKEntry) (s : SchedState) :
    (processEntry O e s).processed = s.processed + 1 := rfl

/-- Each processed entry appends at most one document. -/
lemma processEntry_docs_le (O : Oracles) (e : HBKEntry) (s : SchedState) :
    (processEntry O e s).docs.length ≤ s.docs.length + 1 := by
  have h : ∀ od : Option Documentation,
      (s.docs ++ od.toList).length ≤ s.docs.length + 1 := by
    intro od; cases od <;> simp
  exact h _

/-- One bucket iteration raises `processed_html` by at most one. -/
lemma bucketStep_processed_le (O : Oracles) (bucket : List HBKEntry)
    (cursor : Nat) (gate : (DocumentType → Nat) → Bool) (st : SchedState)
    (i : Nat) :
    (bucketStep O bucket cursor gate st i).processed ≤ st.processed + 1 := by
  unfold bucketStep
  split
  · exact le_of_eq (processEntry_processed _ _ _)
  · exact Nat.le_succ _

/-- One bucket iteration preserves "documents ≤ processed". -/
lemma bucketStep_inv (O : Oracles) (bucket : List HBKEntry) (cursor : Nat)
    (gate : (DocumentType → Nat) → Bool) (st : SchedState) (i : Nat)
    (h : st.docs.length ≤ st.processed) :
    (bucketStep O bucket cursor gate st i).docs.length ≤
      (bucketStep O bucket cursor gate st i).processed := by
  unfold bucketStep
  split
  · calc (processEntry O _ st).docs.length
        ≤ st.docs.length + 1 := processEntry_docs_le _ _ _
      _ ≤ st.processed + 1 := Nat.add_le_add_right h 1
      _ = (processEntry O _ st).processed :=
          (processEntry_processed _ _ _).symm
  · exact h

/-- Folding bucket iterations over any index list raises `processed_html`
by at most the list length. -/
lemma foldl_bucketStep_processed_le (O : Oracles) (bucket : List HBKEntry)
    (cursor : Nat) (gate : (DocumentType → Nat) → Bool) (l : List Nat) :
    ∀ st : SchedState,
      ((l.foldl (bucketStep O bucket cursor gate) st)).processed ≤
        st.processed + l.length := by
  induction l with
  | nil => intro st; simp
  | cons i tl ih =>
    intro st
    have h1 := bucketStep_processed_le O bucket cursor gate st i
    have h2 := ih (bucketStep O bucket cursor gate st i)
    simp only [List.foldl_cons, List.length_cons]
    omega

/-- Folding bucket iterations preserves "documents ≤ processed". -/
lemma foldl_bucketStep_inv (O : Oracles) (bucket : List HBKEntry)
    (cursor : Nat) (gate : (DocumentType → Nat) → Bool) (l : List Nat) :
    ∀ st : SchedState, st.docs.length ≤ st.processed →
      ((l.foldl (bucketStep O bucket cursor gate) st)).docs.length ≤
        ((l.foldl (bucketStep O bucket cursor gate) st)).processed := by
  induction l with
  | nil => intro st h; exact h
  | cons i tl ih =>
    intro st h
    exact ih _ (bucketStep_inv O bucket cursor gate st i h)

/-- One bucket pass raises `processed_html` by at most the batch size. -/
lemma bucketRound_processed_le (O : Oracles) (batch : Nat)
    (bucket : List HBKEntry) (cursor : Nat)
    (gate : (DocumentType → Nat) → Bool) (s : SchedState) :
    (bucketRound O batch bucket cursor gate s).processed ≤
      s.processed + batch := by
  have := foldl_bucketStep_processed_le O bucket cursor gate
    (List.range batch) s
  simpa [bucketRound] using this

/-- One bucket pass preserves "documents ≤ processed". -/
lemma bucketRound_inv (O : Oracles) (batch : Nat) (bucket : List HBKEntry)
    (cursor : Nat) (gate : (DocumentType → Nat) → Bool) (s : SchedState)
    (h : s.docs.length ≤ s.processed) :
    (bucketRound O batch bucket cursor gate s).docs.length ≤
      (bucketRound O batch bucket cursor gate s).processed :=
  foldl_bucketStep_inv O bucket cursor gate (List.range batch) s h

/-- Chaining helper: a bucket pass on a state with a processed bound. -/
lemma bucketRound_chain (O : Oracles) (batch : Nat)
    (bucket : List HBKEntry) (cursor : Nat)
    (gate : (DocumentType → Nat) → Bool) (x : SchedState) (a : Nat)
    (h : x.processed ≤ a) :
    (bucketRound O batch bucket cursor gate x).processed ≤ a + batch :=
  le_trans (bucketRound_processed_le O batch bucket cursor gate x)
    (Nat.add_le_add_right h batch)

/-- One full round raises `processed_html` by at most six batches. -/
lemma runPass_processed_le (O : Oracles) (mpt : Option Nat) (batch : Nat)
    (B : Buckets) (s : SchedState) :
    (runPass O mpt batch B s).processed ≤ s.processed + 6 * batch := by
  refine le_trans
    (bucketRound_chain O batch B.oo _ _ _ _
      (bucketRound_chain O batch B.oe _ _ _ _
        (bucketRound_chain O batch B.oc _ _ _ _
          (bucketRound_chain O batch B.gc _ _ _ _
            (bucketRound_chain O batch B.ge _ _ _ _
              (bucketRound_chain O batch B.gm _ _ _ _
                (Nat.le_refl s.processed))))))) ?_
  omega

/-- One full round preserves "documents ≤ processed". -/
lemma runPass_inv (O : Oracles) (mpt : Option Nat) (batch : Nat)
    (B : Buckets) (s : SchedState) (h : s.docs.length ≤ s.processed) :
    (runPass O mpt batch B s).docs.length ≤
      (runPass O mpt batch B s).processed := by
  exact bucketRound_inv O batch B.oo _ _ _
    (bucketRound_inv O batch B.oe _ _ _
      (bucketRound_inv O batch B.oc _ _ _
        (bucketRound_inv O batch B.gc _ _ _
          (bucketRound_inv O batch B.ge _ _ _
            (bucketRound_inv O batch B.gm _ _ _ h)))))

/-- Invariant bound on the scheduler loop: with a truthy total quota `N`,
the loop body only starts a round when `processed_html < N` and a round
adds at most `6 · batch`, so the document count never exceeds
`N − 1 + 6 · batch`. -/
lemma schedLoop_docs_bound (O : Oracles) (cfg : HBKParser) (B : Buckets)
    (batch : Nat) (N : Nat) (hmtf : cfg.max_total_files = some N)
    (hN : 0 < N) (fuel : Nat) :
    ∀ s : SchedState, s.docs.length ≤ s.processed →
      s.processed ≤ N - 1 + 6 * batch →
      (schedLoop O cfg B batch fuel s).docs.length ≤ N - 1 + 6 * batch := by
  induction fuel with
  | zero => intro s h1 h2; exact le_trans h1 h2
  | succ n ih =>
    intro s h1 h2
    unfold schedLoop
    split
    · rename_i hc
      have hlt : s.processed < N := by
        have hb := hc.2
        have : orInf cfg.max_total_files = some N := by
          simp [orInf, pyTruthy, hmtf]
          omega
        rw [this] at hb
        simpa [ltO] using hb
      have hp' : (runPass O (orInf cfg.max_files_per_type) batch B s).processed ≤
          N - 1 + 6 * batch := by
        have := runPass_processed_le O (orInf cfg.max_files_per_type) batch B s
        omega
      have hd' := runPass_inv O (orInf cfg.max_files_per_type) batch B s h1
      dsimp only
      split
      · exact le_trans hd' hp'
      · exact ih _ hd' hp'
    · exact le_trans h1 h2

/-- The batch size is 5 whenever the total quota is truthy. -/
lemma batch_eq_five (cfg : HBKParser) (N : Nat)
    (hmtf : cfg.max_total_files = some N) (hN : 0 < N) (m : Nat) :
    (if (pyTruthy cfg.max_files_per_type || pyTruthy cfg.max_total_files) = true
     then 5 else m) = 5 := by
  have : pyTruthy cfg.max_total_files = true := by
    simp [pyTruthy, hmtf]; omega
  simp [this]

/-- C1 (amended): with `max_total_files = N` (N ≥ 1), the total quota is
re-checked only at round boundaries, and one round materializes at most
6 buckets × batch 5 = 30 entries, so the result's documentation list never
exceeds `N + 29` records (for `N = 10`: at most 39; the counterexample
shows 15 > 10 is reachable, so the stated cap of `N` itself does not
hold). -/
theorem C1_total_cap_amended (cfg : HBKParser) (O : Oracles) (f : InputFile)
    (N : Nat) (h1 : cfg.max_total_files = some N) (h2 : 0 < N) :
    optDocLen (parse_file cfg O f) ≤ N + 29 := by
  unfold parse_file
  split
  · exact Nat.zero_le _
  split
  · exact Nat.zero_le _
  split
  · exact Nat.zero_le _
  dsimp only
  split
  · show (0 : Nat) ≤ N + 29
    exact Nat.zero_le _
  · show (analyzeStructure cfg O _ _).documentation.length ≤ N + 29
    unfold analyzeStructure
    dsimp only
    rw [batch_eq_five cfg N h1 h2]
    refine le_trans (schedLoop_docs_bound O cfg _ 5 N h1 h2 _ _ ?_ ?_)
      (by omega)
    · exact Nat.le_refl 0
    · exact Nat.zero_le _

/-- Witness for C1 (amended): the 15-document counterexample run respects
the amended bound `10 + 29`. -/
theorem C1_total_cap_amended_witness :
    optDocLen (parse_file ⟨some 100, some 10, 100 * 1024 * 1024⟩
        (fxOracles fxListing15 (fun _ => 0)) fxFile) ≤ 10 + 29 :=
  C1_total_cap_amended ⟨some 100, some 10, 100 * 1024 * 1024⟩
    (fxOracles fxListing15 (fun _ => 0)) fxFile 10 rfl (by omega)

/-! ## Helper lemmas: the cadence check bounds the classification loop -/

/-- `Buckets.push` grows the total bucket population by exactly one. -/
lemma Buckets.push_total (B : Buckets) (b : Bucket) (e : HBKEntry) :
    (B.push b e).total = B.total + 1 := by
  cases b <;> simp [Buckets.push, Buckets.total] <;> omega

/-- Classifying one entry never touches the processed-entries counter. -/
lemma classifyOne_processed (O : Oracles) (e : HBKEntry) (s : ClassState) :
    (classifyOne O e s).processed_entries = s.processed_entries := by
  unfold classifyOne
  dsimp only
  repeat' split
  all_goals rfl

/-- Classifying one entry adds at most one entry to the buckets. -/
lemma classifyOne_total_le (O : Oracles) (e : HBKEntry) (s : ClassState) :
    (classifyOne O e s).B.total ≤ s.B.total + 1 := by
  unfold classifyOne
  dsimp only
  repeat' split
  all_goals simp [Buckets.push_total]

/-- When every cadence reading exceeds the budget, the classification loop
stops at its 10th entry: the processed counter never passes 10 and at most
the first 9 entries land in buckets. -/
lemma classifyLoop_hot (O : Oracles)
    (hclk : ∀ k, 1 ≤ k → 30 < O.clock k - O.clock 0) :
    ∀ (l : List HBKEntry) (s : ClassState),
      s.B.total ≤ s.processed_entries → s.processed_entries < 10 →
      (classifyLoop O l s).processed_entries ≤ 10 ∧
      (classifyLoop O l s).B.total ≤ 9 := by
  intro l
  induction l with
  | nil =>
    intro s h1 h2
    unfold classifyLoop
    exact ⟨by omega, by omega⟩
  | cons e rest ih =>
    intro s h1 h2
    unfold classifyLoop
    by_cases hm : (s.processed_entries + 1) % 10 = 0
    · have h10 : s.processed_entries + 1 = 10 := by omega
      rw [if_pos ⟨hm, by rw [h10]; exact hclk 1 (by omega)⟩]
      refine ⟨?_, ?_⟩
      · show s.processed_entries + 1 ≤ 10
        omega
      · show s.B.total ≤ 9
        omega
    · rw [if_neg (by intro hcon; exact hm hcon.1)]
      have hx : ({ s with processed_entries := s.processed_entries + 1 } :
          ClassState).processed_entries = s.processed_entries + 1 := rfl
      have hxB : ({ s with processed_entries := s.processed_entries + 1 } :
          ClassState).B = s.B := rfl
      apply ih
      · have ht := classifyOne_total_le O e
          { s with processed_entries := s.processed_entries + 1 }
        rw [hxB] at ht
        rw [classifyOne_processed, hx]
        omega
      · rw [classifyOne_processed, hx]
        omega

/-- C3 (amended): the 30-unit wall-clock budget bounds only the
classification phase, at a cadence of one check per 10 processed entries:
when the clock is already past the ceiling at every checkpoint, the
classification loop (started on the fresh accumulator, exactly as
`analyzeStructure` starts it) examines at most 10 entries and buckets at
most the first 9, and the run still completes as a non-error partial
result.  The extraction phase performs no budget check (see the
counterexample: nine documents are materialized after the budget is
exceeded), and the statistics record the discovered-entry total and the
processed-HTML count but not the classification stop point. -/
theorem C3_budget_amended (O : Oracles) (entries : List HBKEntry)
    (cats : List (String × CategoryInfo))
    (hclk : ∀ k, 1 ≤ k → 30 < O.clock k - O.clock 0) :
    (classifyLoop O entries (initClassState cats)).processed_entries ≤ 10 ∧
    (classifyLoop O entries (initClassState cats)).B.total ≤ 9 :=
  classifyLoop_hot O hclk entries (initClassState cats)
    (by simp [initClassState, Buckets.empty, Buckets.total])
    (by simp [initClassState])

/-- Witness for C3 (amended): a 50-entry enumeration under the hot clock —
at most 10 entries examined, at most 9 bucketed. -/
theorem C3_budget_amended_witness :
    (classifyLoop (fxOracles fxListing5 fxHotClock) fxEntries50
        (initClassState [])).processed_entries ≤ 10 ∧
    (classifyLoop (fxOracles fxListing5 fxHotClock) fxEntries50
        (initClassState [])).B.total ≤ 9 :=
  C3_budget_amended (fxOracles fxListing5 fxHotClock) fxEntries50 []
    (fun k hk => by
      have hne : k ≠ 0 := by omega
      simp [fxOracles, fxHotClock, hne])

/-! ## Helper lemmas: listed entries always carry unset content -/

/-- Entries produced by the primary listing grammar have `content = None`
(source line 577). -/
lemma parse7zLine_content_none (line : String) (a : HBKEntry)
    (h : parse7zLine line = some a) : a.content = none := by
  unfold parse7zLine at h
  dsimp only at h
  split at h
  · split at h
    · injection h with h2
      rw [← h2]
    · exact absurd h (by simp)
  · exact absurd h (by simp)

/-- Entries produced by the fallback listing grammar have `content = None`
(source line 535). -/
lemma parseUnzipLine_content_none (line : String) (a : HBKEntry)
    (h : parseUnzipLine line = some a) : a.content = none := by
  unfold parseUnzipLine at h
  dsimp only at h
  split at h
  · split at h
    · injection h with h2
      rw [← h2]
    · exact absurd h (by simp)
  · exact absurd h (by simp)

/-- All entries of a parsed primary listing have unset content. -/
lemma parse7zRows_content_none :
    ∀ (inSec : Bool) (lines : List String), ∀ e ∈ parse7zRows inSec lines,
      e.content = none := by
  intro inSec lines
  induction lines generalizing inSec with
  | nil => intro e h; simp [parse7zRows] at h
  | cons l ls ih =>
    intro e h
    unfold parse7zRows at h
    split at h
    · exact ih _ e h
    · split at h
      · rcases List.mem_append.mp h with h | h
        · cases hp : parse7zLine l with
          | none => rw [hp] at h; simp at h
          | some a =>
            rw [hp] at h
            simp at h
            rw [h]
            exact parse7zLine_content_none l a hp
        · exact ih _ e h
      · exact ih _ e h

/-- All entries of a parsed fallback listing have unset content. -/
lemma parseUnzipRows_content_none :
    ∀ (inSec : Bool) (lines : List String), ∀ e ∈ parseUnzipRows inSec lines,
      e.content = none := by
  intro inSec lines
  induction lines generalizing inSec with
  | nil => intro e h; simp [parseUnzipRows] at h
  | cons l ls ih =>
    intro e h
    unfold parseUnzipRows at h
    split at h
    · split at h
      · simp at h
      · rcases List.mem_append.mp h with h | h
        · cases hp : parseUnzipLine l with
          | none => rw [hp] at h; simp at h
          | some a =>
            rw [hp] at h
            simp at h
            rw [h]
            exact parseUnzipLine_content_none l a hp
        · exact ih _ e h
    · split at h
      · exact ih _ e h
      · exact ih _ e h

/-- Every entry obtained from the archive lister has unset content: both
listing parsers construct entries with `content = None`. -/
lemma extractArchive_content_none (O : Oracles) (p : String) :
    ∀ e ∈ extractArchive O p, e.content = none := by
  intro e he
  revert he
  unfold extractArchive extractExternal7z
  cases hp : probe7z O zipCommands with
  | none => intro he; simp at he
  | some cmd =>
    dsimp only
    cases hs : O.subproc [cmd, "l", p] with
    | none => intro he; simp at he
    | some r =>
      dsimp only
      by_cases hrc : r.returncode ≠ 0
      · rw [if_pos hrc]
        cases hu : O.subproc ["unzip", "-l", p] with
        | none => intro he; simp at he
        | some u =>
          dsimp only
          by_cases hurc : u.returncode ≠ 0
          · rw [if_pos hurc]
            intro he
            simp at he
          · rw [if_neg hurc]
            by_cases hemp : (parseUnzipListing u.stdout).isEmpty = true
            · rw [if_pos hemp]
              intro he
              simp at he
            · rw [if_neg hemp]
              intro he
              exact parseUnzipRows_content_none _ _ e he
      · rw [if_neg hrc]
        intro he
        exact parse7zRows_content_none _ _ e he

/-- The entries the classifier examines are among the listed entries. -/
lemma safeEntries_subset (entries : List HBKEntry) :
    ∀ e ∈ safeEntries entries, e ∈ entries := by
  intro e he
  unfold safeEntries at he
  split at he
  · exact List.take_subset _ _ he
  · exact he

/-! ## Helper lemmas: the categories mapping is never populated -/

/-- `_parse_categories_file` returns immediately when the entry's content
is unset (source lines 398–399). -/
lemma parseCategoriesFile_of_none (O : Oracles) (e : HBKEntry)
    (cats : List (String × CategoryInfo)) (h : e.content = none) :
    parseCategoriesFile O e cats = cats := by
  unfold parseCategoriesFile
  rw [h]

/-- Classifying a content-free entry never touches the categories
mapping. -/
lemma classifyOne_categories (O : Oracles) (e : HBKEntry) (s : ClassState)
    (h : e.content = none) :
    (classifyOne O e s).categories = s.categories := by
  unfold classifyOne
  dsimp only
  repeat' split
  all_goals simp [parseCategoriesFile_of_none O e _ h]

/-- The classification loop never touches the categories mapping when all
its entries are content-free. -/
lemma classifyLoop_categories (O : Oracles) :
    ∀ (l : List HBKEntry) (s : ClassState),
      (∀ e ∈ l, e.content = none) →
      (classifyLoop O l s).categories = s.categories := by
  intro l
  induction l with
  | nil => intro s _; rfl
  | cons e rest ih =>
    intro s hl
    unfold classifyLoop
    dsimp only
    split
    · rfl
    · rw [ih _ (fun x hx => hl x (List.mem_cons_of_mem e hx))]
      exact classifyOne_categories O e _ (hl e (List.mem_cons_self e rest))

/-- `_analyze_structure` leaves the categories mapping unchanged whenever
every listed entry carries unset content. -/
lemma analyzeStructure_categories (cfg : HBKParser) (O : Oracles)
    (entries : List HBKEntry) (res : ParsedHBK)
    (hent : ∀ e ∈ entries, e.content = none) :
    (analyzeStructure cfg O entries res).categories = res.categories := by
  unfold analyzeStructure
  dsimp only
  rw [classifyLoop_categories O _ _
    (fun e he => hent e (safeEntries_subset entries e he))]
  rfl

/-- C10: in every full `parse_file` run the categories mapping stays empty:
both listing grammars construct every entry with `content = None`, content
is never populated before a `__categories__` entry reaches
`_parse_categories_file`, and that function returns immediately on unset
content — so no `CategoryInfo` is ever added (and the version-extraction
logic behind the decode step is unreachable from `parse_file`). -/
theorem C10_categories_stay_empty (cfg : HBKParser) (O : Oracles)
    (f : InputFile) : optCategories (parse_file cfg O f) = [] := by
  unfold parse_file
  split
  · rfl
  split
  · rfl
  split
  · rfl
  dsimp only
  split
  · rfl
  · show (analyzeStructure cfg O _ _).categories = []
    rw [analyzeStructure_categories cfg O _ _
      (extractArchive_content_none O f.path)]
    rfl

/-! ## Helper lemmas: per-entry extraction failures are absorbed -/

/-- Appending one content-free entry preserves the all-content-free
property. -/
lemma allNone_append (l : List HBKEntry) (e : HBKEntry)
    (h1 : ∀ x ∈ l, x.content = none) (he : e.content = none) :
    ∀ x ∈ l ++ [e], x.content = none := by
  intro x hx
  rcases List.mem_append.mp hx with hx | hx
  · exact h1 x hx
  · rw [List.mem_singleton.mp hx]
    exact he

/-- Pushing a content-free entry preserves `BucketsAllNone`. -/
lemma bucketsAllNone_push (B : Buckets) (b : Bucket) (e : HBKEntry)
    (hs : BucketsAllNone B) (he : e.content = none) :
    BucketsAllNone (B.push b e) := by
  obtain ⟨h1, h2, h3, h4, h5, h6⟩ := hs
  cases b
  · exact ⟨allNone_append _ _ h1 he, h2, h3, h4, h5, h6⟩
  · exact ⟨h1, allNone_append _ _ h2 he, h3, h4, h5, h6⟩
  · exact ⟨h1, h2, allNone_append _ _ h3 he, h4, h5, h6⟩
  · exact ⟨h1, h2, h3, allNone_append _ _ h4 he, h5, h6⟩
  · exact ⟨h1, h2, h3, h4, allNone_append _ _ h5 he, h6⟩
  · exact ⟨h1, h2, h3, h4, h5, allNone_append _ _ h6 he⟩

/-- Classifying a content-free entry keeps all buckets content-free. -/
lemma classifyOne_allNone (O : Oracles) (e : HBKEntry) (s : ClassState)
    (he : e.content = none) (hs : BucketsAllNone s.B) :
    BucketsAllNone (classifyOne O e s).B := by
  unfold classifyOne
  dsimp only
  repeat' split
  all_goals first
    | exact hs
    | exact bucketsAllNone_push _ _ _ hs he

/-- The classification loop keeps all buckets content-free when its input
entries are content-free. -/
lemma classifyLoop_allNone (O : Oracles) :
    ∀ (l : List HBKEntry) (s : ClassState),
      (∀ e ∈ l, e.content = none) → BucketsAllNone s.B →
      BucketsAllNone (classifyLoop O l s).B := by
  intro l
  induction l with
  | nil => intro s _ hs; exact hs
  | cons e rest ih =>
    intro s hl hs
    unfold classifyLoop
    dsimp only
    split
    · exact hs
    · exact ih _ (fun x hx => hl x (List.mem_cons_of_mem e hx))
        (classifyOne_allNone O e _ (hl e (List.mem_cons_self e rest)) hs)

/-- `getD` under the in-bounds guard only ever yields content-free
entries when the bucket is content-free (the fallback is content-free
too). -/
lemma allNone_getD :
    ∀ (l : List HBKEntry), (∀ x ∈ l, x.content = none) →
      ∀ i, ((l.getD i defaultEntry)).content = none := by
  intro l
  induction l with
  | nil => intro _ i; cases i <;> rfl
  | cons x xs ih =>
    intro h i
    cases i with
    | zero => exact h x (List.mem_cons_self x xs)
    | succ n => exact ih (fun y hy => h y (List.mem_cons_of_mem x hy)) n

/-- A content-free entry whose on-demand extraction fails contributes no
document (the failure is absorbed; only `processed_html` advances). -/
lemma processEntry_docs_of_none (O : Oracles) (e : HBKEntry)
    (s : SchedState) (he : e.content = none)
    (hex : ∀ p, O.extractContent p = none) :
    (processEntry O e s).docs = s.docs := by
  unfold processEntry
  rw [he]
  dsimp only
  rw [hex]
  simp

/-- One bucket iteration adds no document under failing extraction. -/
lemma bucketStep_docs_of_none (O : Oracles) (bucket : List HBKEntry)
    (cursor : Nat) (gate : (DocumentType → Nat) → Bool) (st : SchedState)
    (i : Nat) (hb : ∀ x ∈ bucket, x.content = none)
    (hex : ∀ p, O.extractContent p = none) :
    (bucketStep O bucket cursor gate st i).docs = st.docs := by
  unfold bucketStep
  split
  · exact processEntry_docs_of_none O _ st (allNone_getD bucket hb _) hex
  · rfl

/-- A fold of bucket iterations adds no document under failing
extraction. -/
lemma foldl_bucketStep_docs_of_none (O : Oracles) (bucket : List HBKEntry)
    (cursor : Nat) (gate : (DocumentType → Nat) → Bool) (l : List Nat)
    (hb : ∀ x ∈ bucket, x.content = none)
    (hex : ∀ p, O.extractContent p = none) :
    ∀ st : SchedState,
      ((l.foldl (bucketStep O bucket cursor gate) st)).docs = st.docs := by
  induction l with
  | nil => intro st; rfl
  | cons i tl ih =>
    intro st
    simp only [List.foldl_cons]
    rw [ih, bucketStep_docs_of_none O bucket cursor gate st i hb hex]

/-- A bucket pass adds no document under failing extraction. -/
lemma bucketRound_docs_of_none (O : Oracles) (batch : Nat)
    (bucket : List HBKEntry) (cursor : Nat)
    (gate : (DocumentType → Nat) → Bool) (s : SchedState)
    (hb : ∀ x ∈ bucket, x.content = none)
    (hex : ∀ p, O.extractContent p = none) :
    (bucketRound O batch bucket cursor gate s).docs = s.docs :=
  foldl_bucketStep_docs_of_none O bucket cursor gate (List.range batch)
    hb hex s

/-- One full round adds no document under failing extraction. -/
lemma runPass_docs_of_none (O : Oracles) (mpt : Option Nat) (batch : Nat)
    (B : Buckets) (s : SchedState) (hB : BucketsAllNone B)
    (hex : ∀ p, O.extractContent p = none) :
    (runPass O mpt batch B s).docs = s.docs := by
  exact (bucketRound_docs_of_none O batch B.oo _ _ _ hB.2.2.2.2.2 hex).trans
    ((bucketRound_docs_of_none O batch B.oe _ _ _ hB.2.2.2.2.1 hex).trans
      ((bucketRound_docs_of_none O batch B.oc _ _ _ hB.2.2.2.1 hex).trans
        ((bucketRound_docs_of_none O batch B.gc _ _ _ hB.2.2.1 hex).trans
          ((bucketRound_docs_of_none O batch B.ge _ _ _ hB.2.1 hex).trans
            (bucketRound_docs_of_none O batch B.gm _ _ _ hB.1 hex)))))

/-- The whole scheduler loop adds no document under failing extraction. -/
lemma schedLoop_docs_of_none (O : Oracles) (cfg : HBKParser) (B : Buckets)
    (batch : Nat) (hB : BucketsAllNone B)
    (hex : ∀ p, O.extractContent p = none) :
    ∀ (fuel : Nat) (s : SchedState),
      (schedLoop O cfg B batch fuel s).docs = s.docs := by
  intro fuel
  induction fuel with
  | zero => intro s; rfl
  | succ n ih =>
    intro s
    unfold schedLoop
    split
    · dsimp only
      split
      · exact runPass_docs_of_none O _ batch B s hB hex
      · exact (ih _).trans (runPass_docs_of_none O _ batch B s hB hex)
    · rfl

/-- `_analyze_structure` materializes nothing when every single-file
extraction fails: each per-entry failure is absorbed and the document list
is returned exactly as it was handed in. -/
lemma analyzeStructure_docs_of_none (cfg : HBKParser) (O : Oracles)
    (entries : List HBKEntry) (res : ParsedHBK)
    (hent : ∀ e ∈ entries, e.content = none)
    (hex : ∀ p, O.extractContent p = none) :
    (analyzeStructure cfg O entries res).documentation = res.documentation := by
  unfold analyzeStructure
  dsimp only
  rw [schedLoop_docs_of_none O cfg _ _
    (classifyLoop_allNone O _ _
      (fun e he => hent e (safeEntries_subset entries e he))
      (by exact ⟨fun x hx => absurd hx (List.not_mem_nil x),
        fun x hx => absurd hx (List.not_mem_nil x),
        fun x hx => absurd hx (List.not_mem_nil x),
        fun x hx => absurd hx (List.not_mem_nil x),
        fun x hx => absurd hx (List.not_mem_nil x),
        fun x hx => absurd hx (List.not_mem_nil x)⟩))
    hex]

/-- C4: for every input that passes pre-flight validation, `parse_file`
returns a result and never propagates an exception (every embedded step is
total; the broad `except` blocks in the source have nothing left to
catch): a failed or empty archive listing yields a result with empty
documentation plus an entry in the errors list, and when every per-entry
extraction fails the run still completes with the failures absorbed —
no document is produced for them and nothing is raised. -/
theorem C4_error_absorption (cfg : HBKParser) (O : Oracles) (f : InputFile)
    (h1 : validate_file_path f.path = true) (h2 : f.size ≤ cfg.maxFileSize)
    (h3 : 1024 * 1024 ≤ f.size) :
    (parse_file cfg O f).isSome = true ∧
    (extractArchive O f.path = [] →
      optDocLen (parse_file cfg O f) = 0 ∧
      optErrors (parse_file cfg O f) ≠ []) ∧
    ((∀ p, O.extractContent p = none) →
      optDocLen (parse_file cfg O f) = 0) := by
  unfold parse_file
  rw [if_neg (by simp [h1]), if_neg (Nat.not_lt.mpr h2),
    if_neg (Nat.not_lt.mpr h3)]
  dsimp only
  by_cases he : (extractArchive O f.path).isEmpty = true
  · rw [if_pos he]
    refine ⟨rfl, fun _ => ⟨rfl, ?_⟩, fun _ => rfl⟩
    show (initResult f).errors ++ _ ≠ []
    simp [initResult]
  · rw [if_neg he]
    refine ⟨rfl, fun hext => absurd (by simp [hext]) he, fun hex => ?_⟩
    show (analyzeStructure cfg O _ _).documentation.length = 0
    rw [analyzeStructure_docs_of_none cfg O _ _
      (extractArchive_content_none O f.path) hex]
    rfl

set_option maxRecDepth 4000 in
/-- Witness for C4: a valid 2 MB `.hbk` whose every subprocess raises and
every extraction fails — the run returns a result with zero documents and
a non-empty error list, and nothing is propagated. -/
theorem C4_error_absorption_witness :
    (parse_file ⟨none, none, 100 * 1024 * 1024⟩ fxDeadOracles
        fxFile).isSome = true ∧
    optDocLen (parse_file ⟨none, none, 100 * 1024 * 1024⟩ fxDeadOracles
        fxFile) = 0 ∧
    optErrors (parse_file ⟨none, none, 100 * 1024 * 1024⟩ fxDeadOracles
        fxFile) ≠ [] := by
  have h := C4_error_absorption ⟨none, none, 100 * 1024 * 1024⟩
    fxDeadOracles fxFile (by decide) (by decide) (by decide)
  have hlist : extractArchive fxDeadOracles fxFile.path = [] := by decide
  exact ⟨h.1, (h.2.1 hlist).1, (h.2.1 hlist).2⟩

end Help1C
